import Mathlib

/-!
# go-v8 plugin glue: `v8_plugin.h` and `samples/plugin/plugin.cc`

A shallow embedding of the two source files.

* `v8_export_plugin` (the macro of `v8_plugin.h`) becomes a higher-order
  function: the macro argument `Body` is a state transformer that says how it
  left (`Completion`), and the three stack objects the macro declares
  (`Locker`, `Isolate::Scope`, `HandleScope`) become constructor / destructor
  pairs, the destructors running in reverse order of construction on every
  way out of the function.
* `LogCallback` and `v8_plugin_log` (of `plugin.cc`) are transcribed statement
  by statement.

The engine and the C library are outside the repository.  What the code uses of
them is modelled on one thread as a `World`: the isolates the thread has
locked, its stack of entered isolates, the handle stack with its scope level,
the object templates, the bytes written to standard output, and a log of the
calls made (`trace`).  The engine's value-to-string conversion is a parameter
(`Engine`).
-/

namespace GoV8

/-! ## Engine values and templates -/

/-- Script values handed to a native callback. -/
inductive Value where
  | undefined
  | null
  | boolean (b : Bool)
  | number (n : Int)
  | string (s : String)
  | symbol (description : String)
  | object (id : Nat)
deriving DecidableEq, Repr

/-- Native functions of the translation unit that can be installed as a
`FunctionCallback`; a function pointer is the name of its target. -/
inductive FunctionCallback where
  | LogCallback
deriving DecidableEq, Repr

/-- The `Data` a template property can be bound to. -/
inductive Data where
  | functionTemplate (callback : FunctionCallback)
  | objectTemplate (ref : Nat)
  | value (v : Value)
deriving DecidableEq, Repr

/-- An `ObjectTemplate`: its named properties, oldest first, one per name. -/
structure ObjectTemplate where
  properties : List (String × Data)
deriving DecidableEq, Repr

/-- What a `Local<T>` created in a handle scope refers to. -/
inductive Handle where
  | str (s : String)
  | fn (callback : FunctionCallback)
  | val (v : Value)
deriving DecidableEq, Repr

/-- The calls the embedded code makes, in the order it makes them. -/
inductive Event where
  | lockerNew (isolate : Nat)
  | lockerDelete (isolate : Nat)
  | isolateEnter (isolate : Nat)
  | isolateExit (isolate : Nat)
  | handleScopeOpen (isolate : Nat)
  | handleScopeClose (isolate : Nat)
  | loadGlobal (global_ptr : Nat)
  | functionTemplateNew (callback : FunctionCallback)
  | templateSet (target : Nat) (name : String)
  | utf8ValueNew (v : Value)
  | utf8ValueDelete
  | printf (arg : Option (List Nat))
deriving DecidableEq, Repr

/-- One thread's view of the process. -/
structure World where
  /-- bytes written to standard output, oldest first -/
  stdout : List Nat
  /-- isolates whose lock this thread holds -/
  locks : List Nat
  /-- stack of entered isolates, innermost first -/
  entered : List Nat
  /-- live handles, newest first -/
  handles : List Handle
  /-- number of open handle scopes -/
  level : Nat
  /-- object templates, addressed by position -/
  templates : List ObjectTemplate
  /-- set once the code has done something C++ leaves undefined -/
  ub : Bool
  /-- calls made so far, oldest first -/
  trace : List Event
deriving DecidableEq, Repr

/-- The conversions the engine supplies to `String::Utf8Value`. -/
structure Engine where
  /-- the buffer `*value` points to, without its terminating NUL; `none` is
  the null pointer a failed conversion leaves -/
  toUtf8 : Value → Option (List Nat)
  /-- handles the conversion leaves in the innermost open scope -/
  temporaries : Value → List Handle

/-- Append a call to the log. -/
def World.emit (e : Event) (w : World) : World :=
  { w with trace := w.trace ++ [e] }

/-- A fresh process: nothing locked, entered, allocated or written. -/
def World.init : World :=
  { stdout := [], locks := [], entered := [], handles := [], level := 0,
    templates := [], ub := false, trace := [] }

/-! ## Engine primitives used by the source -/

/-- A `Locker` on the stack: the isolate and whether this object took the lock. -/
structure Locker where
  isolate : Nat
  has_lock : Bool
deriving DecidableEq, Repr

/-- The constructor `Locker locker(isolate)`: takes the isolate's lock unless this thread already
holds it. -/
def Locker.new (isolate : Nat) (w : World) : Locker × World :=
  let w := w.emit (.lockerNew isolate)
  if isolate ∈ w.locks then
    (⟨isolate, false⟩, w)
  else
    (⟨isolate, true⟩, { w with locks := isolate :: w.locks })

/-- The destructor `~Locker()`: gives the lock back when this object took it. -/
def Locker.delete (l : Locker) (w : World) : World :=
  let w := w.emit (.lockerDelete l.isolate)
  if l.has_lock then { w with locks := w.locks.erase l.isolate } else w

/-- The method `Isolate::Enter()`. -/
def Isolate.Enter (isolate : Nat) (w : World) : World :=
  { w.emit (.isolateEnter isolate) with entered := isolate :: w.entered }

/-- The method `Isolate::Exit()`: leaves the innermost entered isolate. -/
def Isolate.Exit (isolate : Nat) (w : World) : World :=
  { w.emit (.isolateExit isolate) with entered := w.entered.tail }

/-- An `Isolate::Scope` on the stack. -/
structure IsolateScope where
  isolate : Nat
deriving DecidableEq, Repr

/-- The constructor `Isolate::Scope isolate_scope(isolate)`: enters the isolate. -/
def IsolateScope.new (isolate : Nat) (w : World) : IsolateScope × World :=
  (⟨isolate⟩, Isolate.Enter isolate w)

/-- The destructor `~Scope()`: exits the isolate. -/
def IsolateScope.delete (s : IsolateScope) (w : World) : World :=
  Isolate.Exit s.isolate w

/-- A `HandleScope` on the stack: it remembers how many handles were live when
it was opened. -/
structure HandleScope where
  isolate : Nat
  prev_next : Nat
deriving DecidableEq, Repr

/-- The constructor `HandleScope scope(isolate)`. -/
def HandleScope.new (isolate : Nat) (w : World) : HandleScope × World :=
  (⟨isolate, w.handles.length⟩,
   { w.emit (.handleScopeOpen isolate) with level := w.level + 1 })

/-- The destructor `~HandleScope()`: every handle made since the scope was opened is released. -/
def HandleScope.delete (s : HandleScope) (w : World) : World :=
  { w.emit (.handleScopeClose s.isolate) with
    handles := w.handles.drop (w.handles.length - s.prev_next)
    level := w.level - 1 }

/-- Allocate one handle in the innermost scope. -/
def World.newHandle (h : Handle) (w : World) : World :=
  { w with handles := h :: w.handles }

/-- The call `FunctionTemplate::New(isolate, callback)`: the new template, held by a fresh
local handle. -/
def FunctionTemplate.New (_isolate : Nat) (callback : FunctionCallback) (w : World) :
    Data × World :=
  (.functionTemplate callback,
   (w.emit (.functionTemplateNew callback)).newHandle (.fn callback))

/-- Property lookup in a template. -/
def ObjectTemplate.Get (name : String) (t : ObjectTemplate) : Option Data :=
  (t.properties.find? (fun p => p.1 = name)).map (fun p => p.2)

/-- Adding or overwriting one named property of a template. -/
def ObjectTemplate.Set (name : String) (value : Data) (t : ObjectTemplate) : ObjectTemplate :=
  ⟨t.properties.filter (fun p => p.1 ≠ name) ++ [(name, value)]⟩

/-- The call `target->Set(isolate, name, value)` on a template handle: the name becomes
an engine string (one more local handle) and the template it refers to is
updated in place.  A handle that refers to no template is undefined
behaviour. -/
def Template.Set (target : Nat) (_isolate : Nat) (name : String) (value : Data) (w : World) :
    World :=
  let w := (w.emit (.templateSet target name)).newHandle (.str name)
  match w.templates[target]? with
  | some t => { w with templates := w.templates.set target (t.Set name value) }
  | none => { w with ub := true }

/-- The bytes `%s` prints from a buffer: those before the first NUL. -/
def cstr (buf : List Nat) : List Nat :=
  buf.takeWhile (fun b => b ≠ 0)

/-- The call `printf("%s\n", p)`.  A null `p` is undefined behaviour. -/
def printf (p : Option (List Nat)) (w : World) : World :=
  let w := w.emit (.printf p)
  match p with
  | some buf => { w with stdout := w.stdout ++ cstr buf ++ [10] }
  | none => { w with ub := true }

/-- A `String::Utf8Value` on the stack: `str` is what `*value` yields. -/
structure Utf8Value where
  str : Option (List Nat)
deriving DecidableEq, Repr

/-- The constructor `String::Utf8Value value(arg)`. -/
def Utf8Value.new (E : Engine) (arg : Value) (w : World) : Utf8Value × World :=
  (⟨E.toUtf8 arg⟩,
   { w.emit (.utf8ValueNew arg) with handles := E.temporaries arg ++ w.handles })

/-- The destructor `~Utf8Value()`: frees the buffer. -/
def Utf8Value.delete (_v : Utf8Value) (w : World) : World :=
  w.emit .utf8ValueDelete

/-- The `FunctionCallbackInfo<Value>` of one call: the isolate it runs in, the
arguments, and the slot the callback may write its result to. -/
structure FunctionCallbackInfo where
  isolate : Nat
  values : List Value
  returnValue : Value
deriving DecidableEq, Repr

/-- The method `args.Length()`. -/
def FunctionCallbackInfo.Length (args : FunctionCallbackInfo) : Nat :=
  args.values.length

/-- The method `args.GetIsolate()`. -/
def FunctionCallbackInfo.GetIsolate (args : FunctionCallbackInfo) : Nat :=
  args.isolate

/-- The operator `args[i]`: a handle onto the argument slot, `undefined` past the end. -/
def FunctionCallbackInfo.get (args : FunctionCallbackInfo) (i : Nat) : Value :=
  args.values.getD i .undefined

/-! ## `samples/plugin/plugin.cc` -/

/-- Source `plugin.cc:8-16`. -/
def LogCallback (E : Engine) (args : FunctionCallbackInfo) (w : World) :
    FunctionCallbackInfo × World :=
  if args.Length < 1 then (args, w)
  else
    let (scope, w) := HandleScope.new args.GetIsolate w
    let arg := args.get 0
    let (value, w) := Utf8Value.new E arg w
    let w := printf value.str w
    -- end of block: `value`, then `scope`, are destroyed
    let w := Utf8Value.delete value w
    let w := HandleScope.delete scope w
    (args, w)

/-! ## `v8_plugin.h` -/

/-- How a plugin body left: by reaching its end or by a `return`. -/
inductive Completion where
  | fellThrough
  | returned
deriving DecidableEq, Repr

/-- A macro argument `Body`: code that sees `isolate` and `global`. -/
abbrev PluginBody := Nat → Nat → World → Completion × World

/-- Source `v8_plugin.h:7-15`, the function the macro expands to. -/
def v8_export_plugin (Body : PluginBody) (isolate_ptr global_ptr : Nat) (w : World) : World :=
  let isolate := isolate_ptr
  let (locker, w) := Locker.new isolate w
  let (isolate_scope, w) := IsolateScope.new isolate w
  let (scope, w) := HandleScope.new isolate w
  let global := global_ptr
  let w := w.emit (.loadGlobal global_ptr)
  let w := if global_ptr < w.templates.length then w else { w with ub := true }
  let (_, w) := Body isolate global w
  -- either way out of `Body` ends the function: the locals are destroyed
  let w := HandleScope.delete scope w
  let w := IsolateScope.delete isolate_scope w
  Locker.delete locker w

/-- Source `plugin.cc:18-22`, the body given to the macro. -/
def logBody : PluginBody := fun isolate global w =>
  let (ft, w) := FunctionTemplate.New isolate .LogCallback w
  (.fellThrough, Template.Set global isolate "log" ft w)

/-- Source `plugin.cc:18-22`: `v8_export_plugin(log, ...)`. -/
def v8_plugin_log (isolate_ptr global_ptr : Nat) (w : World) : World :=
  v8_export_plugin logBody isolate_ptr global_ptr w

/-! ## The engine side of a call -/

/-- Running an installed callback. -/
def FunctionCallback.run (E : Engine) :
    FunctionCallback → FunctionCallbackInfo → World → FunctionCallbackInfo × World
  | .LogCallback => GoV8.LogCallback E

/-- A script call `f(values...)` of a native function: the engine presets the
return-value slot to `undefined`, runs the callback, and the call evaluates to
what the slot then holds. -/
def callFunction (E : Engine) (f : FunctionCallback) (isolate : Nat) (values : List Value)
    (w : World) : Value × World :=
  let r := f.run E ⟨isolate, values, .undefined⟩ w
  (r.1.returnValue, r.2)

/-! ## A sample engine -/

/-- UTF-8 encoding of a string, as a list of byte values. -/
def utf8 (s : String) : List Nat :=
  s.toList.flatMap (fun c => (String.utf8EncodeChar c).map UInt8.toNat)

/-- A conversion in the engine's style: primitives print as in the
script language, a symbol cannot be converted, objects print as
`[object Object]`; the resulting string is left as a temporary handle. -/
def sampleEngine : Engine where
  toUtf8
    | .undefined => some (utf8 "undefined")
    | .null => some (utf8 "null")
    | .boolean b => some (utf8 (if b then "true" else "false"))
    | .number n => some (utf8 (toString n))
    | .string s => some (utf8 s)
    | .symbol _ => none
    | .object _ => some (utf8 "[object Object]")
  temporaries
    | .symbol _ => []
    | v => [.val v]

/-! ## Vocabulary of the statements -/

/-- Recognises the print call in the log. -/
def Event.isPrintf : Event → Bool
  | .printf _ => true
  | _ => false

/-- Recognises the opening of a handle scope in the log. -/
def Event.isHandleScopeOpen : Event → Bool
  | .handleScopeOpen _ => true
  | _ => false

/-- The state in which `v8_export_plugin` hands control to `Body`: after
lines 9-13 of `v8_plugin.h`. -/
def bodyEntry (isolate_ptr global_ptr : Nat) (w : World) : World :=
  let w := (Locker.new isolate_ptr w).2
  let w := (IsolateScope.new isolate_ptr w).2
  let w := (HandleScope.new isolate_ptr w).2
  let w := w.emit (.loadGlobal global_ptr)
  if global_ptr < w.templates.length then w else { w with ub := true }

/-- A body that leaves the lock set, the entered-isolate stack and the scope
level as it found them, and only adds handles on top of the handle stack. -/
def PluginBody.Balanced (Body : PluginBody) : Prop :=
  ∀ (isolate global : Nat) (w : World),
    (Body isolate global w).2.locks = w.locks ∧
    (Body isolate global w).2.entered = w.entered ∧
    (Body isolate global w).2.level = w.level ∧
    ∃ new, (Body isolate global w).2.handles = new ++ w.handles

/-- A body that enters the isolate once more and never exits it. -/
def enterBody : PluginBody := fun isolate _ w =>
  (.fellThrough, Isolate.Enter isolate w)

/-- A world with one empty object template at address 0. -/
def World.withGlobal : World :=
  { World.init with templates := [⟨[]⟩] }

/-! ## Shared lemmas -/

/-- The zero-argument path of `LogCallback`: the early `return`. -/
theorem LogCallback_nil (E : Engine) (args : FunctionCallbackInfo) (w : World)
    (h : args.values = []) : LogCallback E args w = (args, w) := by
  simp [LogCallback, FunctionCallbackInfo.Length, h]

/-- The printing path of `LogCallback`, statement by statement. -/
theorem LogCallback_cons (E : Engine) (args : FunctionCallbackInfo) (w : World)
    (v : Value) (rest : List Value) (h : args.values = v :: rest) :
    LogCallback E args w =
      (args,
       { w with
         stdout := match E.toUtf8 v with
           | some buf => w.stdout ++ cstr buf ++ [10]
           | none => w.stdout
         ub := match E.toUtf8 v with
           | some _ => w.ub
           | none => true
         trace := w.trace ++
           [.handleScopeOpen args.isolate, .utf8ValueNew v, .printf (E.toUtf8 v),
            .utf8ValueDelete, .handleScopeClose args.isolate] }) := by
  cases hv : E.toUtf8 v <;>
    simp [LogCallback, FunctionCallbackInfo.Length, FunctionCallbackInfo.get,
      FunctionCallbackInfo.GetIsolate, HandleScope.new, HandleScope.delete, Utf8Value.new,
      Utf8Value.delete, printf, World.emit, h, hv]

theorem cstr_eq_self (t : List Nat) (h : 0 ∉ t) : cstr t = t := by
  unfold cstr
  rw [List.takeWhile_eq_self_iff]
  intro b hb
  have : b ≠ 0 := fun hz => h (hz ▸ hb)
  simpa using this

/-! ## `LogCallback` -/

/-- C1 (as stated, refuted): the conversion of the first argument yields the
three bytes `a`, NUL, `b`, and the callback writes `a` and a newline: not the
converted text followed by a newline. -/
theorem LogCallback_nul_counterexample :
    sampleEngine.toUtf8 (.string "a\x00b") = some [97, 0, 98] ∧
    (LogCallback sampleEngine ⟨0, [.string "a\x00b"], .undefined⟩ World.init).2.stdout
      = [97, 10] ∧
    (LogCallback sampleEngine ⟨0, [.string "a\x00b"], .undefined⟩ World.init).2.stdout
      ≠ World.init.stdout ++ [97, 0, 98] ++ [10] := by
  decide

/-- C1 (amended): when the first argument converts to the text `t`, the
callback appends to standard output the bytes of `t` before its first NUL and
then one newline, and nothing else; for a `t` without a NUL byte that is
exactly `t` followed by one newline. -/
theorem LogCallback_writes_text (E : Engine) (args : FunctionCallbackInfo) (w : World)
    (v : Value) (rest : List Value) (t : List Nat)
    (h : args.values = v :: rest) (ht : E.toUtf8 v = some t) :
    (LogCallback E args w).2.stdout = w.stdout ++ cstr t ++ [10] ∧
    (0 ∉ t → (LogCallback E args w).2.stdout = w.stdout ++ t ++ [10]) := by
  have key : (LogCallback E args w).2.stdout = w.stdout ++ cstr t ++ [10] := by
    rw [LogCallback_cons E args w v rest h]
    simp [ht]
  exact ⟨key, fun h0 => by rw [key, cstr_eq_self t h0]⟩

/-- C1 witness: `"hello"` gives `hello` and a newline, `42` gives `42` and a newline. -/
theorem LogCallback_writes_text_witness :
    (LogCallback sampleEngine ⟨0, [.string "hello"], .undefined⟩ World.init).2.stdout
      = [] ++ [104, 101, 108, 108, 111] ++ [10] ∧
    (LogCallback sampleEngine ⟨0, [.number 42], .undefined⟩ World.init).2.stdout
      = [] ++ [52, 50] ++ [10] :=
  ⟨(LogCallback_writes_text sampleEngine ⟨0, [.string "hello"], .undefined⟩ World.init
      (.string "hello") [] [104, 101, 108, 108, 111] rfl (by decide)).2 (by decide),
   (LogCallback_writes_text sampleEngine ⟨0, [.number 42], .undefined⟩ World.init
      (.number 42) [] [52, 50] rfl (by decide)).2 (by decide)⟩

/-- C2: called with no argument, the callback returns at once: the world is
left exactly as it was (nothing written, nothing logged, so no conversion
attempted and no error flagged) and the call information is untouched. -/
theorem LogCallback_no_arguments (E : Engine) (args : FunctionCallbackInfo) (w : World)
    (h : args.values = []) :
    LogCallback E args w = (args, w) ∧
    (LogCallback E args w).2.stdout = w.stdout ∧
    (LogCallback E args w).2.trace = w.trace ∧
    (LogCallback E args w).2.ub = w.ub := by
  rw [LogCallback_nil E args w h]
  exact ⟨rfl, rfl, rfl, rfl⟩

/-- C2 witness: `log()` in a fresh process. -/
theorem LogCallback_no_arguments_witness :
    LogCallback sampleEngine ⟨0, [], .undefined⟩ World.init
      = (⟨0, [], .undefined⟩, World.init) ∧
    (LogCallback sampleEngine ⟨0, [], .undefined⟩ World.init).2.stdout = World.init.stdout ∧
    (LogCallback sampleEngine ⟨0, [], .undefined⟩ World.init).2.trace = World.init.trace ∧
    (LogCallback sampleEngine ⟨0, [], .undefined⟩ World.init).2.ub = World.init.ub :=
  LogCallback_no_arguments sampleEngine ⟨0, [], .undefined⟩ World.init rfl

/-- C3: two calls whose argument lists are non-empty and start with the same
value write the same text, whatever follows the first argument (and whatever
world each call starts in). -/
theorem LogCallback_first_argument_only (E : Engine) (a b : FunctionCallbackInfo)
    (wa wb : World) (ha : a.values ≠ []) (hb : b.values ≠ [])
    (hab : a.values.head? = b.values.head?) :
    ∃ out, (LogCallback E a wa).2.stdout = wa.stdout ++ out ∧
           (LogCallback E b wb).2.stdout = wb.stdout ++ out := by
  obtain ⟨i, va, r⟩ := a
  obtain ⟨j, vb, r2⟩ := b
  cases va with
  | nil => exact absurd rfl ha
  | cons v ra =>
    cases vb with
    | nil => exact absurd rfl hb
    | cons v2 rb =>
      have hv : v = v2 := by simpa using hab
      subst hv
      rw [LogCallback_cons E ⟨i, v :: ra, r⟩ wa v ra rfl,
        LogCallback_cons E ⟨j, v :: rb, r2⟩ wb v rb rfl]
      cases E.toUtf8 v with
      | none => exact ⟨[], by simp, by simp⟩
      | some t => exact ⟨cstr t ++ [10], by simp, by simp⟩

/-- C3 witness: `log("a", "b")` and `log("a")` both write `a` and a newline. -/
theorem LogCallback_first_argument_only_witness :
    (∃ out,
      (LogCallback sampleEngine ⟨0, [.string "a", .string "b"], .undefined⟩ World.init).2.stdout
        = World.init.stdout ++ out ∧
      (LogCallback sampleEngine ⟨0, [.string "a"], .undefined⟩ World.init).2.stdout
        = World.init.stdout ++ out) ∧
    (LogCallback sampleEngine ⟨0, [.string "a", .string "b"], .undefined⟩ World.init).2.stdout
      = [97, 10] ∧
    (LogCallback sampleEngine ⟨0, [.string "a"], .undefined⟩ World.init).2.stdout
      = [97, 10] :=
  ⟨LogCallback_first_argument_only sampleEngine ⟨0, [.string "a", .string "b"], .undefined⟩
      ⟨0, [.string "a"], .undefined⟩ World.init World.init (by decide) (by decide)
      (by decide),
   by decide, by decide⟩

/-- C8: on both paths the callback hands the call information back with the
return-value slot as it received it, so a script call of `log`, whose slot the
engine presets to `undefined`, evaluates to `undefined`. -/
theorem LogCallback_leaves_return_value (E : Engine) (args : FunctionCallbackInfo)
    (w : World) :
    (LogCallback E args w).1 = args ∧
    (LogCallback E args w).1.returnValue = args.returnValue ∧
    (callFunction E .LogCallback args.isolate args.values w).1 = .undefined := by
  have h1 : ∀ a : FunctionCallbackInfo, (LogCallback E a w).1 = a := by
    intro a
    cases hv : a.values with
    | nil => rw [LogCallback_nil E a w hv]
    | cons v rest => rw [LogCallback_cons E a w v rest hv]
  refine ⟨h1 args, by rw [h1 args], ?_⟩
  simp [callFunction, FunctionCallback.run, h1]

/-- C9 (as stated, refuted): on the zero-argument path no handle scope is
opened at all: the call logs nothing. -/
theorem LogCallback_scope_counterexample :
    (LogCallback sampleEngine ⟨0, [], .undefined⟩ World.init).2.trace = [] ∧
    ((LogCallback sampleEngine ⟨0, [], .undefined⟩ World.init).2.trace.any
      Event.isHandleScopeOpen) = false := by
  decide

/-- C9 (amended): every call returns with the scope level and the live
handles it was entered with.  A call with at least one argument opens one
handle scope before it touches the argument and closes it last; a call
without arguments opens none. -/
theorem LogCallback_handle_scope (E : Engine) (args : FunctionCallbackInfo) (w : World) :
    (LogCallback E args w).2.level = w.level ∧
    (LogCallback E args w).2.handles = w.handles ∧
    (args.values = [] → (LogCallback E args w).2.trace = w.trace) ∧
    (∀ v rest, args.values = v :: rest →
      (LogCallback E args w).2.trace = w.trace ++
        [.handleScopeOpen args.isolate, .utf8ValueNew v, .printf (E.toUtf8 v),
         .utf8ValueDelete, .handleScopeClose args.isolate]) := by
  cases hv : args.values with
  | nil =>
    rw [LogCallback_nil E args w hv]
    exact ⟨rfl, rfl, fun _ => rfl, fun v rest h => by cases h⟩
  | cons v rest =>
    rw [LogCallback_cons E args w v rest hv]
    refine ⟨rfl, rfl, fun h => (by cases h), ?_⟩
    intro v2 rest2 h
    cases h
    rfl

/-- C10: with at least one argument the print call is made exactly once, and
its argument is whatever the conversion left, unexamined: a failed conversion
puts the null pointer into the print call, which is undefined behaviour, and
nothing is written. -/
theorem LogCallback_prints_unchecked (E : Engine) (args : FunctionCallbackInfo) (w : World)
    (v : Value) (rest : List Value) (h : args.values = v :: rest) :
    (∃ before after,
      (LogCallback E args w).2.trace = w.trace ++ before ++ [.printf (E.toUtf8 v)] ++ after ∧
      before.countP Event.isPrintf = 0 ∧ after.countP Event.isPrintf = 0) ∧
    (E.toUtf8 v = none →
      Event.printf none ∈ (LogCallback E args w).2.trace ∧
      (LogCallback E args w).2.ub = true ∧
      (LogCallback E args w).2.stdout = w.stdout) := by
  rw [LogCallback_cons E args w v rest h]
  refine ⟨⟨[.handleScopeOpen args.isolate, .utf8ValueNew v],
    [.utf8ValueDelete, .handleScopeClose args.isolate], by simp, rfl, rfl⟩, ?_⟩
  intro hn
  simp [hn]

/-- C10 witness: `log(Symbol())`, whose conversion fails. -/
theorem LogCallback_prints_unchecked_witness :
    (∃ before after,
      (LogCallback sampleEngine ⟨0, [.symbol ""], .undefined⟩ World.init).2.trace
        = World.init.trace ++ before ++ [.printf (sampleEngine.toUtf8 (.symbol ""))] ++ after ∧
      before.countP Event.isPrintf = 0 ∧ after.countP Event.isPrintf = 0) ∧
    (sampleEngine.toUtf8 (.symbol "") = none →
      Event.printf none ∈ (LogCallback sampleEngine ⟨0, [.symbol ""], .undefined⟩ World.init).2.trace ∧
      (LogCallback sampleEngine ⟨0, [.symbol ""], .undefined⟩ World.init).2.ub = true ∧
      (LogCallback sampleEngine ⟨0, [.symbol ""], .undefined⟩ World.init).2.stdout
        = World.init.stdout) :=
  LogCallback_prints_unchecked sampleEngine ⟨0, [.symbol ""], .undefined⟩ World.init
    (.symbol "") [] rfl

/-! ## `v8_export_plugin` and `v8_plugin_log` -/

/-- The expansion of the macro, seen from its body: set-up, body, tear-down. -/
theorem v8_export_plugin_eq (Body : PluginBody) (i g : Nat) (w : World) :
    v8_export_plugin Body i g w =
      Locker.delete (Locker.new i w).1
        (IsolateScope.delete ⟨i⟩
          (HandleScope.delete ⟨i, w.handles.length⟩ (Body i g (bodyEntry i g w)).2)) := by
  by_cases hl : i ∈ w.locks <;>
    simp [v8_export_plugin, bodyEntry, Locker.new, IsolateScope.new, HandleScope.new,
      Isolate.Enter, World.emit, hl]

theorem bodyEntry_fields (i g : Nat) (w : World) :
    (bodyEntry i g w).locks = (if i ∈ w.locks then w.locks else i :: w.locks) ∧
    (bodyEntry i g w).entered = i :: w.entered ∧
    (bodyEntry i g w).level = w.level + 1 ∧
    (bodyEntry i g w).handles = w.handles ∧
    (bodyEntry i g w).stdout = w.stdout ∧
    (bodyEntry i g w).templates = w.templates ∧
    (bodyEntry i g w).trace = w.trace ++
      [.lockerNew i, .isolateEnter i, .handleScopeOpen i, .loadGlobal g] := by
  by_cases hl : i ∈ w.locks <;> by_cases hg : g < w.templates.length <;>
    simp [bodyEntry, Locker.new, IsolateScope.new, HandleScope.new, Isolate.Enter,
      World.emit, hl, hg]

/-- Registration of `log` on a live template, field by field. -/
theorem v8_plugin_log_eq (i g : Nat) (w : World) (t : ObjectTemplate)
    (ht : w.templates[g]? = some t) :
    v8_plugin_log i g w =
      { w with
        templates := w.templates.set g (t.Set "log" (.functionTemplate .LogCallback))
        trace := w.trace ++
          [.lockerNew i, .isolateEnter i, .handleScopeOpen i, .loadGlobal g,
           .functionTemplateNew .LogCallback, .templateSet g "log",
           .handleScopeClose i, .isolateExit i, .lockerDelete i] } := by
  have hg : g < w.templates.length := by
    rcases Nat.lt_or_ge g w.templates.length with h | h
    · exact h
    · rw [List.getElem?_eq_none h] at ht
      cases ht
  have hd : List.drop (w.handles.length + 1 + 1 - w.handles.length)
      (Handle.str "log" :: Handle.fn FunctionCallback.LogCallback :: w.handles)
        = w.handles := by
    have e : w.handles.length + 1 + 1 - w.handles.length = 2 := by omega
    rw [e]
    rfl
  by_cases hl : i ∈ w.locks <;>
    simp [v8_plugin_log, v8_export_plugin, logBody, Locker.new, Locker.delete,
      IsolateScope.new, IsolateScope.delete, HandleScope.new, HandleScope.delete,
      Isolate.Enter, Isolate.Exit, FunctionTemplate.New, Template.Set, World.emit,
      World.newHandle, hl, hg, ht, hd]

theorem logBody_balanced : PluginBody.Balanced logBody := by
  intro i g w
  refine ⟨?_, ?_, ?_, [.str "log", .fn .LogCallback], ?_⟩ <;>
    simp only [logBody, FunctionTemplate.New, Template.Set, World.emit, World.newHandle] <;>
    split <;> rfl

theorem Get_none_filter (name : String) (t : ObjectTemplate) (h : t.Get name = none) :
    t.properties.filter (fun p => p.1 ≠ name) = t.properties := by
  rw [List.filter_eq_self]
  intro p hp
  simp only [ObjectTemplate.Get, Option.map_eq_none', List.find?_eq_none] at h
  simpa using h p hp

theorem Get_append_of_some (name : String) (d : Data) (ps qs : List (String × Data))
    (h : ObjectTemplate.Get name ⟨ps⟩ = some d) :
    ObjectTemplate.Get name ⟨ps ++ qs⟩ = some d := by
  simp only [ObjectTemplate.Get, Option.map_eq_some'] at h ⊢
  obtain ⟨p, hp, hd⟩ := h
  exact ⟨p, by rw [List.find?_append, hp]; rfl, hd⟩

/-- C4: on a live global template without a `log` property, registration
leaves the template with its old properties, unchanged and in place, followed
by one new property `log`, bound to a function template whose callback is
`LogCallback`. -/
theorem v8_plugin_log_adds_log (i g : Nat) (w : World) (t : ObjectTemplate)
    (ht : w.templates[g]? = some t) (hlog : t.Get "log" = none) :
    (v8_plugin_log i g w).templates[g]? =
      some ⟨t.properties ++ [("log", .functionTemplate .LogCallback)]⟩ ∧
    ObjectTemplate.Get "log" ⟨t.properties ++ [("log", .functionTemplate .LogCallback)]⟩ =
      some (.functionTemplate .LogCallback) ∧
    (∀ name d, t.Get name = some d →
      ObjectTemplate.Get name ⟨t.properties ++ [("log", .functionTemplate .LogCallback)]⟩
        = some d) ∧
    (t.properties ++ [("log", Data.functionTemplate .LogCallback)]).map Prod.fst =
      t.properties.map Prod.fst ++ ["log"] := by
  have hg : g < w.templates.length := by
    rcases Nat.lt_or_ge g w.templates.length with h | h
    · exact h
    · rw [List.getElem?_eq_none h] at ht
      cases ht
  refine ⟨?_, ?_, ?_, by simp⟩
  · have hs : t.Set "log" (.functionTemplate .LogCallback) =
        ⟨t.properties ++ [("log", .functionTemplate .LogCallback)]⟩ := by
      unfold ObjectTemplate.Set
      rw [Get_none_filter "log" t hlog]
    rw [v8_plugin_log_eq i g w t ht, hs]
    simp [hg]
  · have hn : t.properties.find? (fun p => p.1 = "log") = none := by
      simpa [ObjectTemplate.Get] using hlog
    simp [ObjectTemplate.Get, List.find?_append, hn]
  · intro name d hd
    exact Get_append_of_some name d t.properties _ hd

/-- C4 witness: a global template that already has a property `print`. -/
theorem v8_plugin_log_adds_log_witness :
    (v8_plugin_log 1 0
        { World.init with templates := [⟨[("print", .value (.number 7))]⟩] }).templates[0]? =
      some ⟨[("print", .value (.number 7))] ++ [("log", .functionTemplate .LogCallback)]⟩ ∧
    ObjectTemplate.Get "log"
        ⟨[("print", .value (.number 7))] ++ [("log", .functionTemplate .LogCallback)]⟩ =
      some (.functionTemplate .LogCallback) ∧
    (∀ name d, ObjectTemplate.Get name ⟨[("print", .value (.number 7))]⟩ = some d →
      ObjectTemplate.Get name
          ⟨[("print", .value (.number 7))] ++ [("log", .functionTemplate .LogCallback)]⟩
        = some d) ∧
    ([("print", Data.value (.number 7))] ++ [("log", Data.functionTemplate .LogCallback)]).map
        Prod.fst =
      [("print", Data.value (.number 7))].map Prod.fst ++ ["log"] :=
  v8_plugin_log_adds_log 1 0 { World.init with templates := [⟨[("print", .value (.number 7))]⟩] }
    ⟨[("print", .value (.number 7))]⟩ rfl (by decide)

/-- C5: registration on a live global template writes nothing to standard
output and leaves the lock set, the entered-isolate stack, the live handles,
the scope level, the undefined-behaviour flag and every other template as they
were; the calls it makes are the set-up, the creation of the function
template, the `Set`, and the tear-down: `LogCallback` is not run. -/
theorem v8_plugin_log_frame (i g : Nat) (w : World) (hg : g < w.templates.length) :
    (v8_plugin_log i g w).stdout = w.stdout ∧
    (v8_plugin_log i g w).locks = w.locks ∧
    (v8_plugin_log i g w).entered = w.entered ∧
    (v8_plugin_log i g w).handles = w.handles ∧
    (v8_plugin_log i g w).level = w.level ∧
    (v8_plugin_log i g w).ub = w.ub ∧
    (v8_plugin_log i g w).templates.length = w.templates.length ∧
    (∀ j, j ≠ g → (v8_plugin_log i g w).templates[j]? = w.templates[j]?) ∧
    (v8_plugin_log i g w).trace = w.trace ++
      [.lockerNew i, .isolateEnter i, .handleScopeOpen i, .loadGlobal g,
       .functionTemplateNew .LogCallback, .templateSet g "log",
       .handleScopeClose i, .isolateExit i, .lockerDelete i] := by
  have ht : w.templates[g]? = some (w.templates[g]) := List.getElem?_eq_getElem hg
  rw [v8_plugin_log_eq i g w _ ht]
  refine ⟨rfl, rfl, rfl, rfl, rfl, rfl, by simp, ?_, rfl⟩
  intro j hj
  simp [List.getElem?_set, Ne.symm hj]

/-- C5 witness: registration in a fresh process with one empty template. -/
theorem v8_plugin_log_frame_witness :
    (v8_plugin_log 1 0 World.withGlobal).stdout = World.withGlobal.stdout ∧
    (v8_plugin_log 1 0 World.withGlobal).locks = World.withGlobal.locks ∧
    (v8_plugin_log 1 0 World.withGlobal).entered = World.withGlobal.entered ∧
    (v8_plugin_log 1 0 World.withGlobal).handles = World.withGlobal.handles ∧
    (v8_plugin_log 1 0 World.withGlobal).level = World.withGlobal.level ∧
    (v8_plugin_log 1 0 World.withGlobal).ub = World.withGlobal.ub ∧
    (v8_plugin_log 1 0 World.withGlobal).templates.length = World.withGlobal.templates.length ∧
    (∀ j, j ≠ 0 →
      (v8_plugin_log 1 0 World.withGlobal).templates[j]? = World.withGlobal.templates[j]?) ∧
    (v8_plugin_log 1 0 World.withGlobal).trace = World.withGlobal.trace ++
      [.lockerNew 1, .isolateEnter 1, .handleScopeOpen 1, .loadGlobal 0,
       .functionTemplateNew .LogCallback, .templateSet 0 "log",
       .handleScopeClose 1, .isolateExit 1, .lockerDelete 1] :=
  v8_plugin_log_frame 1 0 World.withGlobal (by decide)

/-- C6 (as stated, refuted): a body that enters the isolate and does not exit
it returns to a caller whose entered-isolate stack is one deeper than at
entry. -/
theorem v8_export_plugin_release_counterexample :
    World.withGlobal.entered = [] ∧
    (v8_export_plugin enterBody 1 0 World.withGlobal).entered = [1] := by
  decide

/-- C6 (amended): whatever the body does and however it leaves, the entry
point closes its handle scope, exits the isolate and destroys its locker, in
that order, after the body.  When the body is balanced (it leaves lock set,
entered-isolate stack and scope level as it found them and only adds handles),
the lock set, the entered-isolate stack, the scope level and the live handles
at return are those at entry. -/
theorem v8_export_plugin_releases (Body : PluginBody) (i g : Nat) (w : World) :
    (v8_export_plugin Body i g w).trace =
      (Body i g (bodyEntry i g w)).2.trace ++
        [.handleScopeClose i, .isolateExit i, .lockerDelete i] ∧
    (Body.Balanced →
      (v8_export_plugin Body i g w).locks = w.locks ∧
      (v8_export_plugin Body i g w).entered = w.entered ∧
      (v8_export_plugin Body i g w).level = w.level ∧
      (v8_export_plugin Body i g w).handles = w.handles) := by
  rw [v8_export_plugin_eq]
  obtain ⟨hlocks, hentered, hlevel, hhandles, -, -, -⟩ := bodyEntry_fields i g w
  constructor
  · by_cases hl : i ∈ w.locks <;>
      simp [Locker.new, Locker.delete, IsolateScope.delete, HandleScope.delete,
        Isolate.Exit, World.emit, hl]
  · intro hB
    obtain ⟨bl, be, bv, new, bh⟩ := hB i g (bodyEntry i g w)
    rw [hlocks] at bl
    rw [hentered] at be
    rw [hlevel] at bv
    rw [hhandles] at bh
    by_cases hl : i ∈ w.locks <;>
      simp [Locker.new, Locker.delete, IsolateScope.delete, HandleScope.delete,
        Isolate.Exit, World.emit, hl, bl, be, bv, bh]

/-- C6 witness: the body of the `log` plugin is balanced. -/
theorem v8_export_plugin_releases_witness :
    PluginBody.Balanced logBody ∧
    (v8_export_plugin logBody 1 0 World.withGlobal).locks = World.withGlobal.locks ∧
    (v8_export_plugin logBody 1 0 World.withGlobal).entered = World.withGlobal.entered ∧
    (v8_export_plugin logBody 1 0 World.withGlobal).level = World.withGlobal.level ∧
    (v8_export_plugin logBody 1 0 World.withGlobal).handles = World.withGlobal.handles :=
  ⟨logBody_balanced,
   (v8_export_plugin_releases logBody 1 0 World.withGlobal).2 logBody_balanced⟩

/-- C7: the body is run exactly once, on the state reached after the locker
is constructed, then the isolate entered, then the handle scope opened, then
the global handle read, in that order: there the isolate's lock is held, the
isolate is the innermost entered one and the scope level is one above the
caller's. -/
theorem v8_export_plugin_body_inside (Body : PluginBody) (i g : Nat) (w : World) :
    v8_export_plugin Body i g w =
      Locker.delete (Locker.new i w).1
        (IsolateScope.delete ⟨i⟩
          (HandleScope.delete ⟨i, w.handles.length⟩ (Body i g (bodyEntry i g w)).2)) ∧
    i ∈ (bodyEntry i g w).locks ∧
    (bodyEntry i g w).entered = i :: w.entered ∧
    (bodyEntry i g w).level = w.level + 1 ∧
    (bodyEntry i g w).trace = w.trace ++
      [.lockerNew i, .isolateEnter i, .handleScopeOpen i, .loadGlobal g] := by
  obtain ⟨hlocks, hentered, hlevel, -, -, -, htrace⟩ := bodyEntry_fields i g w
  refine ⟨v8_export_plugin_eq Body i g w, ?_, hentered, hlevel, htrace⟩
  rw [hlocks]
  by_cases hl : i ∈ w.locks <;> simp [hl]

end GoV8
